import Mathlib

/-!
Verification of the scraping/enrollment coordinator of
Discounted-Udemy-Course-Enroller (src/cli.py, src/app.py, src/main.py).

The scraper tasks (base.py) expose, per source, the fields
`<code>_length` (0 = not yet known, -1 = init failure, n > 0 = total),
`<code>_progress`, `<code>_done` and `<code>_error`; the two monitors
(`create_scraping_thread` in src/cli.py and `create_web_scraping_thread`
in src/app.py) poll those fields.  We embed each monitor as a function of
the task's eventual stable observable state, together with the list of
progress values observed while polling.
-/

namespace DUCE

/-- The stable observable state of a scraper task once the task itself has
stopped running: the final values of `<code>_length`, `<code>_error` and
`<code>_done`. -/
structure TaskFinal where
  length : Int
  error : String
  done : Bool
deriving Repr, DecidableEq

/-- How a scraper task that got past initialization ends. -/
inductive RunEnd
  /-- the task sets `<code>_done := true` with no error -/
  | completed
  /-- mid-scrape failure: the task sets `<code>_error := msg` and `<code>_done := true` -/
  | midError (msg : String)
  /-- the task's thread terminates without ever setting `done` or `error` -/
  | silentDeathMid
deriving Repr, DecidableEq

/-- The eventual behaviour of one scraper task. -/
inductive ScrapeOutcome
  /-- initialization failure: the task sets `<code>_length := -1` and `<code>_error := msg` -/
  | initError (msg : String)
  /-- the task's thread terminates while `length` is still 0, with `error` and `done` unset -/
  | silentDeathInit
  /-- the task sets `<code>_length := total` and then ends as `rest` -/
  | runs (total : Nat) (rest : RunEnd)
deriving Repr, DecidableEq

/-- The final field values left behind by each outcome. -/
def outcomeFinal : ScrapeOutcome → TaskFinal
  | .initError msg => ⟨-1, msg, true⟩
  | .silentDeathInit => ⟨0, "", false⟩
  | .runs total .completed => ⟨(total : Int), "", true⟩
  | .runs total (.midError msg) => ⟨(total : Int), msg, true⟩
  | .runs total .silentDeathMid => ⟨(total : Int), "", false⟩

/-! ## The CLI monitor: `create_scraping_thread` (src/cli.py lines 167-218) -/

/-- Guard of the CLI init-wait loop (src/cli.py line 174):
`while getattr(scraper, f"<code>_length") == 0: time.sleep(0.1)`. -/
def cliWaitGuard (length : Int) : Bool := length == 0

/-- One iteration of the CLI init-wait loop body (src/cli.py lines 174-175).
The body is a bare `time.sleep(0.1)`: it writes no scraper field and performs
no thread-liveness check, so the observed task state is unchanged. -/
def cliWaitStep (f : TaskFinal) : TaskFinal := f

/-- The observed task state after `n` iterations of the CLI init-wait loop,
for a task that has already stopped running (so nothing else writes it). -/
def cliWaitIter : Nat → TaskFinal → TaskFinal
  | 0, f => f
  | n + 1, f => cliWaitIter n (cliWaitStep f)

/-- What the CLI monitor leaves behind when it returns. -/
structure CliResult where
  /-- whether `sys.exit` ran (`handle_error` with `exit_program=True`) -/
  exited : Bool
  /-- final value of the scraper's `<code>_done` flag -/
  doneFlag : Bool
  /-- the error message passed to `handle_error` (src/cli.py line 217), if any -/
  loggedError : Option String
  /-- whether control reached the scraping-progress loop (src/cli.py lines 184-196) -/
  enteredScrapeLoop : Bool
deriving Repr, DecidableEq

/-- `create_scraping_thread` of src/cli.py, as a function of the task's
eventual stable state.  `none` means the monitor never returns: one of its
polling loops has a guard that stays true forever on this state (the CLI
monitor has no thread-liveness check).  On an error path the exception is
caught at line 210; `handle_error` is called with `exit_program=False`
(so no `sys.exit`) and `<code>_done` is set to `True` (line 218). -/
def create_scraping_thread (f : TaskFinal) : Option CliResult :=
  -- line 174: `while length == 0: sleep` — exits only if the task set length ≠ 0
  if cliWaitGuard f.length then none
  else if f.length == -1 then
    -- lines 177-182: init error; `raise Exception(error_msg)`, caught at 210-218
    some { exited := false, doneFlag := true, loggedError := some f.error,
           enteredScrapeLoop := false }
  else
    -- lines 184-196: `while not done and not error:` — again no liveness check
    if !f.done && f.error == "" then none
    else if f.error != "" then
      -- lines 198-202: runtime error; `raise`, caught at 210-218
      some { exited := false, doneFlag := true, loggedError := some f.error,
             enteredScrapeLoop := true }
    else
      -- lines 203-208: completed normally
      some { exited := false, doneFlag := f.done, loggedError := none,
             enteredScrapeLoop := true }

/-! ## The web monitor: `create_web_scraping_thread` (src/app.py lines 404-488) -/

/-- One entry of `enrollment_stats["sites_progress"]` (src/app.py line 39). -/
structure ProgEntry where
  current : Int
  total : Int
  done : Bool
  error : String
  status : String
deriving Repr, DecidableEq

/-- Guard of the web init-wait loop (src/app.py lines 425-426):
wait while `<code>_length == 0` and `<code>_error == ""`. -/
def webWaitGuard (length : Int) (error : String) : Bool :=
  length == 0 && error == ""

/-- Scraper fields as the web monitor's init-wait loop leaves them.  Unlike
the CLI monitor, this loop checks `scraper_method_thread.is_alive()`
(src/app.py lines 427-436): when the thread has died with all flags unset it
sets `<code>_error`, `<code>_length := -1` and `<code>_done := True` itself. -/
def webInitFields (o : ScrapeOutcome) : TaskFinal :=
  match o with
  | .silentDeathInit =>
      ⟨-1, "Scraper thread died unexpectedly during init.", true⟩
  | _ => outcomeFinal o

/-- Scraper fields as the web monitor's scrape loop leaves them.  The loop
(src/app.py lines 450-459) has the same liveness guard: a thread dead
mid-scrape with flags unset gets `<code>_error` set and `<code>_done := True`
by the monitor. -/
def webRunFields (o : ScrapeOutcome) : TaskFinal :=
  match o with
  | .runs total .silentDeathMid =>
      ⟨(total : Int), "Scraper thread died unexpectedly during scraping.", true⟩
  | _ => webInitFields o

/-- `create_web_scraping_thread` of src/app.py as the chronological list of
snapshots the shared `prog_entry` dict passes through, one snapshot per
mutation.  `obs` is the list of `<code>_progress` values the polling loop
reads at line 461 (one snapshot per poll, line 462).  The monitor always
terminates: both polling loops detect a dead thread. -/
def create_web_scraping_thread (o : ScrapeOutcome) (obs : List Int) :
    List ProgEntry :=
  -- line 415: prog_entry.update current 0, total 0, done False, error "", status "Initializing"
  let e0 : ProgEntry :=
    { current := 0, total := 0, done := false, error := "", status := "Initializing" }
  let fInit := webInitFields o
  -- line 439: scraper_total_length := <code>_length
  let total := fInit.length
  if total == -1 then
    -- line 444: error, total 0, status "Error" (current and done unchanged)
    let e1 : ProgEntry :=
      { e0 with error := fInit.error, total := 0, status := "Error" }
    -- line 485 (finally): prog_entry done := True; line 486 guard is false (status is "Error")
    [e0, e1, { e1 with done := true }]
  else
    -- line 447: total := scraper_total_length, status "Scraping..."
    let e1 : ProgEntry := { e0 with total := total, status := "Scraping..." }
    let fRun := webRunFields o
    -- line 462: prog_entry current := <code>_progress, once per poll
    let polls := obs.map fun c => { e1 with current := c }
    let eL := polls.getLastD e1
    -- lines 466-475: classify the loop exit
    let e2 : ProgEntry :=
      if fRun.error != "" then
        { eL with error := fRun.error, current := total, status := "Error" }
      else if fRun.done then
        { eL with current := total, status := "Completed" }
      else
        { eL with error := "Unknown scraping state", status := "Error" }
    -- line 485 (finally): done := True
    let e3 : ProgEntry := { e2 with done := true }
    -- lines 486-487: if status not in [Completed, Error] and no error, force Error
    let tail :=
      if e3.status != "Completed" && e3.status != "Error" && e3.error == "" then
        [e3, { e3 with error := "Monitor finished inconclusively", status := "Error" }]
      else [e3]
    e0 :: e1 :: polls ++ e2 :: tail

/-- The final state of `prog_entry` once the web monitor returns. -/
def webFinal (o : ScrapeOutcome) (obs : List Int) : ProgEntry :=
  (create_web_scraping_thread o obs).getLastD
    { current := 0, total := 0, done := false, error := "", status := "Pending" }

/-- The chronological sequence of values of `prog_entry["status"]` over a
source's whole run: `run_enrollment_process` first sets it to `"Pending"`
(src/app.py lines 554-557), then the monitor takes over. -/
def webStatusTrace (o : ScrapeOutcome) (obs : List Int) : List String :=
  "Pending" :: (create_web_scraping_thread o obs).map (fun e => e.status)

/-! ## Candidates and the merged ledger -/

/-- One scraped course candidate: dedup key (its URL/id), title and list
price.  Produced by the scraper tasks in base.py. -/
structure Course where
  key : String
  title : String
  price : Int
deriving Repr, DecidableEq

/-- Insert a candidate into the ledger unless its dedup key is present
(first-seen wins, the deterministic rule recommended by the spec). -/
def insertCandidate (acc : List Course) (c : Course) : List Course :=
  if acc.any (fun d => d.key == c.key) then acc else acc ++ [c]

/-- Union of all sources' candidates, deduplicated by key. -/
def mergeLedger (cs : List Course) : List Course :=
  cs.foldl insertCandidate []

/-- The error messages of the failed sources, in order. -/
def sourceErrors (results : List (Except String (List Course))) : List String :=
  results.filterMap fun r =>
    match r with
    | .error e => some e
    | .ok _ => none

/-- The candidate lists of the successful sources, in order. -/
def sourceData (results : List (Except String (List Course))) :
    List (List Course) :=
  results.filterMap fun r =>
    match r with
    | .error _ => none
    | .ok cs => some cs

/-- Whether a source result is an error. -/
def isErr (r : Except String (List Course)) : Bool :=
  match r with
  | .error _ => true
  | .ok _ => false

/-- Modelled from the spec: `Scraper.get_scraped_courses` is defined in
base.py, which is not part of src/ (src/app.py line 562 and src/cli.py
line 342 only call it).  Per spec §4.1 and §7 it waits for every source,
merges the candidates of the non-errored sources into one deduplicated
ledger — a source's error does not block the others — and fails with a
composite `NoCandidatesError` exactly when **all** sources errored. -/
def get_scraped_courses (results : List (Except String (List Course))) :
    Except String (List Course) :=
  if results.length ≠ 0 ∧ results.all isErr then
    .error ("NoCandidatesError: all sources failed: "
      ++ String.intercalate "; " (sourceErrors results))
  else
    .ok (mergeLedger (sourceData results).flatten)

/-! ## Enrollment statistics (src/app.py lines 27-40, 373-382) -/

/-- The global `enrollment_stats` dict of src/app.py. -/
structure EnrollmentStats where
  successfully_enrolled_c : Nat
  already_enrolled_c : Nat
  expired_c : Nat
  excluded_c : Nat
  amount_saved_c : ℚ
  currency : String
  total_courses_processed : Nat
  total_courses_to_process : Nat
  current_course_title : String
  current_course_url : String
  status : String
  sites_progress : List (String × ProgEntry)
deriving Repr, DecidableEq

/-- The mutable globals of src/app.py that the enrollment run reads and
writes: `enrollment_stats` and `enrollment_logs`.  The individual
`flask_logger` appends are presentation output and are not modelled; the
`logs` field changes only where the source clears it. -/
structure GlobalState where
  stats : EnrollmentStats
  logs : List String
deriving Repr, DecidableEq

/-- `reset_enrollment_stats` (src/app.py lines 373-382): clears the log list
and reassigns `enrollment_stats` to a fresh dict, ignoring whatever values
the globals held before. -/
def reset_enrollment_stats (cur : String) : GlobalState :=
  { logs := [],
    stats :=
      { successfully_enrolled_c := 0, already_enrolled_c := 0, expired_c := 0,
        excluded_c := 0, amount_saved_c := 0, currency := cur,
        total_courses_processed := 0, total_courses_to_process := 0,
        current_course_title := "N/A", current_course_url := "N/A",
        status := "Idle", sites_progress := [] } }

/-! ## The enrollment run: `run_enrollment_process` (src/app.py lines 490-583) -/

/-- Behaviour of the call `udemy_instance.start_new_enroll()` at
src/app.py line 569 (the method itself lives in base.py): it either returns
normally, raises a `LoginException`, or raises some other exception. -/
inductive EnrollEvent
  | ok
  | loginEx (msg : String)
  | otherEx (msg : String)
deriving Repr, DecidableEq

/-- The externally determined inputs of one call to
`run_enrollment_process`: its two arguments, the state of the global
`udemy_instance`, the outcome of the cookie re-login, the selected sites,
each site's scrape result, and the behaviour of `start_new_enroll`. -/
structure RunEnv where
  displayName : String
  sessionCurrency : String
  /-- `udemy_instance` is not `None` -/
  haveInstance : Bool
  /-- `udemy_instance.display_name` (relevant when `haveInstance`) -/
  instanceDisplayName : String
  /-- `udemy_instance.currency` (relevant when `haveInstance`) -/
  instanceCurrency : String
  /-- result of `load_cookies` + `get_session_info`: the session currency on
  success, the exception message on failure -/
  cookieLogin : Except String String
  /-- `udemy_instance.sites` after `is_user_dumb()` loaded the settings -/
  sites : List String
  /-- per-source scrape results, in site order -/
  sourceResults : List (Except String (List Course))
  enroll : EnrollEvent
deriving Repr

/-- The `sites_progress` entry `run_enrollment_process` creates for each
selected site before scraping starts (src/app.py lines 554-557). -/
def pendingEntry : ProgEntry :=
  { current := 0, total := 0, done := false, error := "", status := "Pending" }

/-- src/app.py lines 534-583: the part of `run_enrollment_process` after a
session is established.  Returns the new global state and whether control
reached the `start_new_enroll()` call (the enrollment phase). -/
def runAfterLogin (env : RunEnv) (g : GlobalState) : GlobalState × Bool :=
  -- lines 540-545: `if not udemy_instance.sites: ... return`
  if env.sites.isEmpty then
    ({ g with stats.status := "Error: No sites selected in settings." }, false)
  else
    -- lines 550-557: status update and per-site Pending entries
    let g1 : GlobalState :=
      { g with stats.status := "Scraping courses...",
               stats.sites_progress := env.sites.map (fun s => (s, pendingEntry)) }
    -- line 562: get_scraped_courses; an exception propagates to line 577
    match get_scraped_courses env.sourceResults with
    | .error e => ({ g1 with stats.status := "Error: " ++ e }, false)
    | .ok data =>
      -- lines 563-567
      let g2 : GlobalState :=
        { g1 with stats.total_courses_to_process := data.length,
                  stats.status := "Enrolling courses..." }
      -- line 569: start_new_enroll; lines 571-580 classify its outcome
      match env.enroll with
      | .ok => ({ g2 with stats.status := "Finished" }, true)
      | .loginEx m => ({ g2 with stats.status := "Login Error: " ++ m }, true)
      | .otherEx m => ({ g2 with stats.status := "Error: " ++ m }, true)

/-- `run_enrollment_process` (src/app.py lines 490-583) over the mutable
globals `g0`.  Returns the new global state and whether the enrollment phase
(the `start_new_enroll()` call) was entered. -/
def run_enrollment_process (env : RunEnv) (g0 : GlobalState) :
    GlobalState × Bool :=
  -- lines 493-495: `if not user_display_name_from_session: ... return`
  if env.displayName == "" then
    ({ g0 with stats.status := "Error: Not logged in" }, false)
  else
    -- lines 498-502: pick the working currency
    let cur0 :=
      if env.haveInstance && env.instanceCurrency != "" then env.instanceCurrency
      else if env.sessionCurrency != "" then env.sessionCurrency
      else "USD"
    -- lines 504-505: reset the globals, then set status
    let g1 : GlobalState := reset_enrollment_stats cur0
    let g1 : GlobalState := { g1 with stats.status := "Initializing..." }
    -- lines 511-532: re-establish the session when there is no usable instance
    if !env.haveInstance || env.instanceDisplayName == "" then
      match env.cookieLogin with
      | .error e =>
        ({ g1 with stats.status :=
            "Error: Session expired or invalid. Please re-login. (" ++ e ++ ")" },
         false)
      | .ok cur1 => runAfterLogin env { g1 with stats.currency := cur1 }
    else
      if env.instanceCurrency != "" then
        runAfterLogin env { g1 with stats.currency := env.instanceCurrency }
      else
        runAfterLogin env g1

/-! ## The enrollment engine and its PendingWindow

`Udemy.start_new_enroll` lives in base.py, which is not part of src/;
src/cli.py line 367 and src/app.py line 569 only call it, and
src/cli.py line 125 / src/app.py lines 400-401 display the window as
`len(valid_courses)/5`.  The engine below is modelled from the spec. -/

/-- Outcome of one call of the enrollment API for one candidate
(spec §4.3 / §6). -/
inductive ApiOutcome
  | success (price : Int)
  | alreadyEnrolled
  | expired
  | transientError
deriving Repr, DecidableEq

/-- The enrollment engine's run state.  `valid_courses` is the
PendingWindow: candidates past the filter, not yet resolved by the API. -/
structure EngineState where
  valid_courses : List Course
  successfully_enrolled_c : Nat
  already_enrolled_c : Nat
  expired_c : Nat
  excluded_c : Nat
  amount_saved_c : Int
  total_courses_processed : Nat
deriving Repr, DecidableEq

/-- The engine's state at the start of the enrollment phase. -/
def emptyEngineState : EngineState :=
  { valid_courses := [], successfully_enrolled_c := 0, already_enrolled_c := 0,
    expired_c := 0, excluded_c := 0, amount_saved_c := 0,
    total_courses_processed := 0 }

/-- Modelled from the spec: resolving the candidate at the front of the
PendingWindow against the enrollment API and classifying the outcome
(spec §4.3: success adds the list price to `amount_saved`; a transient
error skips the candidate). -/
def resolveOne (api : Course → ApiOutcome) (s : EngineState) : EngineState :=
  match s.valid_courses with
  | [] => s
  | c :: rest =>
    let s1 : EngineState :=
      { s with valid_courses := rest,
               total_courses_processed := s.total_courses_processed + 1 }
    match api c with
    | .success p =>
      { s1 with successfully_enrolled_c := s1.successfully_enrolled_c + 1,
                amount_saved_c := s1.amount_saved_c + p }
    | .alreadyEnrolled =>
      { s1 with already_enrolled_c := s1.already_enrolled_c + 1 }
    | .expired => { s1 with expired_c := s1.expired_c + 1 }
    | .transientError => s1

/-- Modelled from the spec: admission of one candidate (spec §4.3).  A
candidate rejected by the filter increments `excluded`; an accepted
candidate enters the PendingWindow, but when the window already holds 5
unresolved candidates the engine first blocks until the front slot
resolves. -/
def admitCandidate (api : Course → ApiOutcome) (accept : Course → Bool)
    (s : EngineState) (c : Course) : EngineState :=
  if accept c then
    let s1 := if 5 ≤ s.valid_courses.length then resolveOne api s else s
    { s1 with valid_courses := s1.valid_courses ++ [c] }
  else
    { s with excluded_c := s.excluded_c + 1 }

/-- Modelled from the spec: the sequence of engine states visited while the
enrollment phase consumes the candidate list, initial state included. -/
def engineTrace (api : Course → ApiOutcome) (accept : Course → Bool)
    (cs : List Course) : List EngineState :=
  cs.scanl (admitCandidate api accept) emptyEngineState

/-! ## The auto-enroll scheduler and the settings page (src/app.py) -/

/-- The scheduler's observable job state: the interval in hours of the
scheduled auto-enroll job, when one is registered
(`auto_start_job_instance` in src/app.py). -/
structure SchedState where
  job : Option Nat
deriving Repr, DecidableEq

/-- `start_auto_enroll_scheduler` (src/app.py lines 192-208): rejects an
interval below 1 hour, else cancels any previous job and registers a new
one. -/
def start_auto_enroll_scheduler (hours : Int) (st : SchedState) : SchedState :=
  if hours < 1 then st else { job := some hours.toNat }

/-- `stop_auto_enroll_scheduler` (src/app.py lines 210-216). -/
def stop_auto_enroll_scheduler (_st : SchedState) : SchedState :=
  { job := none }

/-- A handler's HTTP-level result. -/
inductive WebResponse
  | redirectTo (endpoint : String)
  | renderPage (template : String)
deriving Repr, DecidableEq

/-- The two settings fields the scheduler branch of `settings_page` reads. -/
structure SettingsForm where
  auto_start_enabled : Bool
  auto_start_hours : Int
deriving Repr, DecidableEq

/-- The POST branch of `settings_page` (src/app.py lines 330-365), with the
Python `return` statement modelled as `throw` in the `Except` monad: the
handler's result is the thrown value when a `return` executed, else the
value the body falls through to.  The statements after line 360, the
scheduler start/stop of lines 362-365, are part of the body exactly as in
the source. -/
def settingsPostBody (form : SettingsForm) (saveOk : Bool) (st : SchedState) :
    Except (WebResponse × SchedState) (WebResponse × SchedState) := do
  -- lines 356-359: flash a message depending on save_settings' result
  let _flash :=
    if saveOk then "Settings saved successfully!" else "Error saving settings."
  -- line 360: return redirect(url_for('settings_page'))
  throw (WebResponse.redirectTo "settings_page", st)
  -- lines 362-365: scheduler start/stop, placed after the return
  let st1 :=
    if form.auto_start_enabled then
      start_auto_enroll_scheduler form.auto_start_hours st
    else
      stop_auto_enroll_scheduler st
  -- lines 367-370: render the settings template
  pure (WebResponse.renderPage "settings.html", st1)

/-- The response and scheduler state a POST to `/settings` produces. -/
def settings_page_post (form : SettingsForm) (saveOk : Bool)
    (st : SchedState) : WebResponse × SchedState :=
  match settingsPostBody form saveOk st with
  | .error r => r
  | .ok r => r

/-- `initial_app_setup` (src/app.py lines 651-658): at application startup
the scheduler is started from the persisted settings when auto-start is
enabled with a valid interval. -/
def initial_app_setup (s : SettingsForm) (st : SchedState) : SchedState :=
  if s.auto_start_enabled then
    if 1 ≤ s.auto_start_hours then start_auto_enroll_scheduler s.auto_start_hours st
    else st
  else st

/-! ## Starting an enrollment process (src/app.py lines 133-175, 585-600) -/

/-- JSON response of the `/start_enrollment` route. -/
structure StartResponse where
  ok : Bool
  message : String
  httpStatus : Nat
deriving Repr, DecidableEq

/-- The `/start_enrollment` route (src/app.py lines 585-600): returns the
response and whether a new enrollment thread was spawned. -/
def start_enrollment (loggedIn : Bool) (threadAlive : Bool) :
    StartResponse × Bool :=
  if !loggedIn then
    ({ ok := false, message := "Not logged in", httpStatus := 401 }, false)
  else if threadAlive then
    ({ ok := false, message := "Process already running", httpStatus := 400 }, false)
  else
    ({ ok := true, message := "Enrollment process started", httpStatus := 200 }, true)

/-- Outcome of `auto_enroll_job`'s own cookie-login attempt
(src/app.py lines 149-166). -/
inductive AutoLoginResult
  | ok (displayName currency : String)
  | loginEx (msg : String)
  | otherEx (msg : String)
deriving Repr, DecidableEq

/-- `auto_enroll_job` (src/app.py lines 133-175): returns whether an
enrollment thread was spawned and the error status it leaves, if any. -/
def auto_enroll_job (threadAlive : Bool) (login : AutoLoginResult) :
    Bool × Option String :=
  -- lines 139-141: a live enrollment thread makes the job return at once
  if threadAlive then (false, none)
  else
    match login with
    | .loginEx m =>
      (false, some ("Auto-Enroll Error: Login failed (" ++ m ++ ")."))
    | .otherEx m =>
      (false, some ("Auto-Enroll Error: Unexpected login error (" ++ m ++ ")."))
    | .ok name _cur =>
      -- lines 168-175
      if name != "" then (true, none)
      else (false, some "Auto-Enroll Error: Session could not be established.")

/-! ## Derived notions used by the statements -/

/-- The spec's per-source state machine (§4.1), over the status strings the
web monitor writes: a status may stay put, `Pending → Initializing`,
`Initializing → Scraping...`, `Scraping... → Completed`, `Error` from any
non-terminal state, and a terminal status (`Completed`, `Error`) admits no
move to a different status. -/
def statusStep (a b : String) : Bool :=
  if a == b then true
  else if a == "Pending" then b == "Initializing" || b == "Error"
  else if a == "Initializing" then b == "Scraping..." || b == "Error"
  else if a == "Scraping..." then b == "Completed" || b == "Error"
  else false

/-- `s` begins with `p`. -/
def strStartsWith (s p : String) : Bool :=
  p.data.isPrefixOf s.data

/-- The conditions under which `run_enrollment_process` runs to normal
completion: a display name, a usable or re-establishable session, at least
one selected site, a scrape that produced a ledger, and a
`start_new_enroll` that returned normally. -/
def runSucceeds (env : RunEnv) : Bool :=
  env.displayName != "" &&
  ((env.haveInstance && env.instanceDisplayName != "") || env.cookieLogin.isOk) &&
  !env.sites.isEmpty &&
  (get_scraped_courses env.sourceResults).isOk &&
  (match env.enroll with | .ok => true | _ => false)

/-- The conditions under which the run reaches `start_new_enroll` and that
call raises a `LoginException` (the fatal session/auth failure of spec §7). -/
def runFailsAuth (env : RunEnv) : Bool :=
  env.displayName != "" &&
  ((env.haveInstance && env.instanceDisplayName != "") || env.cookieLogin.isOk) &&
  !env.sites.isEmpty &&
  (get_scraped_courses env.sourceResults).isOk &&
  (match env.enroll with | .loginEx _ => true | _ => false)

/-! ## Concrete sample inputs for witnesses and counterexamples -/

/-- A sample candidate. -/
def sampleCourse : Course :=
  { key := "course-1", title := "Sample", price := 10 }

/-- A run environment with a logged-in session, one site, and one source
that fails: used to exercise the total-scrape-failure path. -/
def allErrorEnv : RunEnv :=
  { displayName := "user", sessionCurrency := "USD", haveInstance := true,
    instanceDisplayName := "user", instanceCurrency := "USD",
    cookieLogin := .ok "USD", sites := ["site"],
    sourceResults := [.error "timeout"], enroll := .ok }

/-- A run environment whose scrape succeeds and whose enrollment completes
normally. -/
def okEnv : RunEnv :=
  { allErrorEnv with sourceResults := [.ok [sampleCourse]], enroll := .ok }

/-- A run environment whose `start_new_enroll` raises a `LoginException`. -/
def loginFailEnv : RunEnv :=
  { allErrorEnv with
    sourceResults := [.ok [sampleCourse]]
    enroll := .loginEx "session invalid" }

/-- A clean global state. -/
def cleanGlobals : GlobalState :=
  reset_enrollment_stats "USD"

/-- A dirty global state, as a previous run might leave it. -/
def dirtyGlobals : GlobalState :=
  { stats :=
      { (reset_enrollment_stats "EUR").stats with
        successfully_enrolled_c := 7, amount_saved_c := 42,
        current_course_title := "Old", status := "Finished",
        sites_progress := [("site", pendingEntry)] },
    logs := ["old log line"] }

/-! ## Helper lemmas -/

theorem cliWaitIter_fixed (n : Nat) (f : TaskFinal) : cliWaitIter n f = f := by
  induction n with
  | zero => rfl
  | succ n ih => exact ih

theorem getLastD_append_pair {α : Type} (l : List α) (x y d : α) :
    (l ++ [x, y]).getLastD d = y := by
  have h : l ++ [x, y] = (l ++ [x]) ++ [y] := by simp
  rw [h, List.getLastD_concat]

theorem natCast_bne_neg_one (n : Nat) : ((n : Int) == -1) = false :=
  beq_eq_false_iff_ne.mpr (by omega)

theorem natCast_bne_zero (n : Nat) (h : 0 < n) : ((n : Int) == 0) = false :=
  beq_eq_false_iff_ne.mpr (by omega)

theorem getLastD_map {α β : Type} (f : α → β) (l : List α) (d : α) :
    (l.map f).getLastD (f d) = f (l.getLastD d) := by
  induction l generalizing d with
  | nil => rfl
  | cons a l ih =>
    rw [List.map_cons, List.getLastD_cons, List.getLastD_cons, ih]

theorem webList_initError (msg : String) (obs : List Int) :
    create_web_scraping_thread (.initError msg) obs =
      [⟨0, 0, false, "", "Initializing"⟩,
       ⟨0, 0, false, msg, "Error"⟩,
       ⟨0, 0, true, msg, "Error"⟩] := rfl

theorem webList_silentDeathInit (obs : List Int) :
    create_web_scraping_thread .silentDeathInit obs =
      [⟨0, 0, false, "", "Initializing"⟩,
       ⟨0, 0, false, "Scraper thread died unexpectedly during init.", "Error"⟩,
       ⟨0, 0, true, "Scraper thread died unexpectedly during init.", "Error"⟩] := rfl

theorem webList_runs_midError (total : Nat) (msg : String) (obs : List Int)
    (hmsg : msg ≠ "") :
    create_web_scraping_thread (.runs total (.midError msg)) obs =
      ⟨0, 0, false, "", "Initializing"⟩ ::
      ⟨0, (total : Int), false, "", "Scraping..."⟩ ::
      (obs.map fun c => ⟨c, (total : Int), false, "", "Scraping..."⟩) ++
      [⟨(total : Int), (total : Int), false, msg, "Error"⟩,
       ⟨(total : Int), (total : Int), true, msg, "Error"⟩] := by
  have h1 := natCast_bne_neg_one total
  have hm : (msg == "") = false := beq_eq_false_iff_ne.mpr hmsg
  have hL := getLastD_map
    (fun c => (⟨c, (total : Int), false, "", "Scraping..."⟩ : ProgEntry)) obs 0
  simp [create_web_scraping_thread, webInitFields, webRunFields, outcomeFinal,
    h1, hm, hL, hmsg]

theorem webList_runs_silentDeathMid (total : Nat) (obs : List Int) :
    create_web_scraping_thread (.runs total .silentDeathMid) obs =
      ⟨0, 0, false, "", "Initializing"⟩ ::
      ⟨0, (total : Int), false, "", "Scraping..."⟩ ::
      (obs.map fun c => ⟨c, (total : Int), false, "", "Scraping..."⟩) ++
      [⟨(total : Int), (total : Int), false,
        "Scraper thread died unexpectedly during scraping.", "Error"⟩,
       ⟨(total : Int), (total : Int), true,
        "Scraper thread died unexpectedly during scraping.", "Error"⟩] := by
  have h1 := natCast_bne_neg_one total
  have hL := getLastD_map
    (fun c => (⟨c, (total : Int), false, "", "Scraping..."⟩ : ProgEntry)) obs 0
  simp [create_web_scraping_thread, webInitFields, webRunFields, outcomeFinal,
    h1, hL]

theorem webList_runs_completed (total : Nat) (obs : List Int) :
    create_web_scraping_thread (.runs total .completed) obs =
      ⟨0, 0, false, "", "Initializing"⟩ ::
      ⟨0, (total : Int), false, "", "Scraping..."⟩ ::
      (obs.map fun c => ⟨c, (total : Int), false, "", "Scraping..."⟩) ++
      [⟨(total : Int), (total : Int), false, "", "Completed"⟩,
       ⟨(total : Int), (total : Int), true, "", "Completed"⟩] := by
  have h1 := natCast_bne_neg_one total
  have hL := getLastD_map
    (fun c => (⟨c, (total : Int), false, "", "Scraping..."⟩ : ProgEntry)) obs 0
  simp [create_web_scraping_thread, webInitFields, webRunFields, outcomeFinal,
    h1, hL]

theorem webList_runs_midErrorEmpty (total : Nat) (obs : List Int) :
    create_web_scraping_thread (.runs total (.midError "")) obs =
      ⟨0, 0, false, "", "Initializing"⟩ ::
      ⟨0, (total : Int), false, "", "Scraping..."⟩ ::
      (obs.map fun c => ⟨c, (total : Int), false, "", "Scraping..."⟩) ++
      [⟨(total : Int), (total : Int), false, "", "Completed"⟩,
       ⟨(total : Int), (total : Int), true, "", "Completed"⟩] := by
  have h1 := natCast_bne_neg_one total
  have hL := getLastD_map
    (fun c => (⟨c, (total : Int), false, "", "Scraping..."⟩ : ProgEntry)) obs 0
  simp [create_web_scraping_thread, webInitFields, webRunFields, outcomeFinal,
    h1, hL]


/-! ## Claims -/

/-- Claim C1: for every configured source whose scrape fails (during
initialization or mid-scrape), the per-source monitor records the error,
marks that source done, and returns without aborting the run — in the CLI
monitor the exception is swallowed (`exited = false`, error logged, the
`done` flag forced), in the web monitor the progress entry ends with the
error recorded, `done = true` and status `Error`, and both monitor
functions return a value rather than abort. -/
theorem claim_C1 (msg : String) (total : Nat) (obs : List Int)
    (hmsg : msg ≠ "") (htotal : 0 < total) :
    create_scraping_thread (outcomeFinal (.initError msg)) =
      some { exited := false, doneFlag := true, loggedError := some msg,
             enteredScrapeLoop := false } ∧
    create_scraping_thread (outcomeFinal (.runs total (.midError msg))) =
      some { exited := false, doneFlag := true, loggedError := some msg,
             enteredScrapeLoop := true } ∧
    ((webFinal (.initError msg) obs).error = msg ∧
     (webFinal (.initError msg) obs).done = true ∧
     (webFinal (.initError msg) obs).status = "Error") ∧
    ((webFinal (.runs total (.midError msg)) obs).error = msg ∧
     (webFinal (.runs total (.midError msg)) obs).done = true ∧
     (webFinal (.runs total (.midError msg)) obs).status = "Error") := by
  have h0 := natCast_bne_zero total htotal
  have h1 := natCast_bne_neg_one total
  have hm : (msg == "") = false := beq_eq_false_iff_ne.mpr hmsg
  refine ⟨rfl, ?_, ⟨rfl, rfl, rfl⟩, ?_⟩
  · simp [create_scraping_thread, outcomeFinal, cliWaitGuard, h0, h1, hm, hmsg]
  · rw [webFinal, webList_runs_midError total msg obs hmsg, getLastD_append_pair]
    exact ⟨rfl, rfl, rfl⟩

/-- Claim C2: both monitors read the scraper's length/total field with the
sentinel semantics `0 = not yet known` (the wait-loop guard holds, the
monitor keeps polling) and `-1 = initialization failure` (the wait-loop
guard fails, the monitor classifies the source as `Error` carrying the
source's own error message, and the scraping-progress loop is never
entered). -/
theorem claim_C2 (f : TaskFinal) (msg : String) (obs : List Int)
    (hf : f.length = -1) :
    cliWaitGuard 0 = true ∧
    webWaitGuard 0 "" = true ∧
    cliWaitGuard f.length = false ∧
    create_scraping_thread f =
      some { exited := false, doneFlag := true, loggedError := some f.error,
             enteredScrapeLoop := false } ∧
    webStatusTrace (.initError msg) obs =
      ["Pending", "Initializing", "Error", "Error"] ∧
    (webFinal (.initError msg) obs).error = msg := by
  obtain ⟨len, err, d⟩ := f
  simp only at hf
  subst hf
  exact ⟨rfl, rfl, rfl, rfl, rfl, rfl⟩

theorem claim_C2_witness :
    (⟨-1, "boom", true⟩ : TaskFinal).length = -1 ∧
    create_scraping_thread ⟨-1, "boom", true⟩ =
      some { exited := false, doneFlag := true, loggedError := some "boom",
             enteredScrapeLoop := false } :=
  ⟨rfl, (claim_C2 ⟨-1, "boom", true⟩ "boom" [] rfl).2.2.2.1⟩

theorem claim_C1_witness :
    (webFinal (.runs 3 (.midError "net down")) [1, 2]).error = "net down" ∧
    create_scraping_thread (outcomeFinal (.initError "net down")) =
      some { exited := false, doneFlag := true, loggedError := some "net down",
             enteredScrapeLoop := false } :=
  ⟨(claim_C1 "net down" 3 [1, 2] (by decide) (by decide)).2.2.2.1,
   (claim_C1 "net down" 3 [1, 2] (by decide) (by decide)).1⟩

/-- Claim C3 counterexample: the claim asserts the liveness guard for every
monitor the program runs, but the CLI monitor has none.  On a task that
dies silently during initialization the CLI monitor's embedded function
yields `none` (its wait loop `while length == 0` never exits), and after a
million poll iterations the observed state still satisfies the wait-loop
guard, so no grace period ever classifies the source. -/
theorem claim_C3_counterexample :
    create_scraping_thread (outcomeFinal .silentDeathInit) = none ∧
    cliWaitGuard (cliWaitIter 1000000 (outcomeFinal .silentDeathInit)).length
      = true := by
  refine ⟨rfl, ?_⟩
  rw [cliWaitIter_fixed]
  rfl

/-- Claim C3 (amended): for every source whose scraper task terminates
without ever setting its done flag or its error field, the WEB monitor
detects this after a bounded grace period and transitions the source to
`Error` with a "died unexpectedly" message and `done = true`; the CLI
monitor has no such guard: its polling loops never exit on a silently dead
task (the observed state is a fixed point of the wait loop and its guard
stays true), so the CLI monitor waits forever instead. -/
theorem claim_C3_amended (obs : List Int) (total : Nat) (n : Nat)
    (htotal : 0 < total) :
    ((webFinal .silentDeathInit obs).status = "Error" ∧
     (webFinal .silentDeathInit obs).error =
       "Scraper thread died unexpectedly during init." ∧
     (webFinal .silentDeathInit obs).done = true) ∧
    ((webFinal (.runs total .silentDeathMid) obs).status = "Error" ∧
     (webFinal (.runs total .silentDeathMid) obs).error =
       "Scraper thread died unexpectedly during scraping." ∧
     (webFinal (.runs total .silentDeathMid) obs).done = true) ∧
    (cliWaitIter n (outcomeFinal .silentDeathInit) =
       outcomeFinal .silentDeathInit ∧
     cliWaitGuard (outcomeFinal .silentDeathInit).length = true ∧
     create_scraping_thread (outcomeFinal .silentDeathInit) = none ∧
     create_scraping_thread (outcomeFinal (.runs total .silentDeathMid)) =
       none) := by
  have h0 := natCast_bne_zero total htotal
  refine ⟨⟨rfl, rfl, rfl⟩, ?_, cliWaitIter_fixed n _, rfl, rfl, ?_⟩
  · rw [webFinal, webList_runs_silentDeathMid total obs, getLastD_append_pair]
    exact ⟨rfl, rfl, rfl⟩
  · simp [create_scraping_thread, outcomeFinal, cliWaitGuard, h0]

theorem claim_C3_amended_witness :
    0 < 3 ∧ (webFinal .silentDeathInit []).status = "Error" :=
  ⟨by decide, (claim_C3_amended [] 3 5 (by decide)).1.1⟩

/-- Claim C4: in every run in which all configured sources error (total
scrape failure), `get_scraped_courses` fails with a composite
`NoCandidatesError`, the exception makes the run fail with that error as
its status, and the enrollment phase (`start_new_enroll`) is never
entered. -/
theorem claim_C4 (env : RunEnv) (g : GlobalState)
    (hne : env.sourceResults ≠ [])
    (hall : env.sourceResults.all isErr = true)
    (hsites : env.sites ≠ []) :
    get_scraped_courses env.sourceResults =
      .error ("NoCandidatesError: all sources failed: "
        ++ String.intercalate "; " (sourceErrors env.sourceResults)) ∧
    (runAfterLogin env g).2 = false ∧
    (runAfterLogin env g).1.stats.status =
      "Error: " ++ ("NoCandidatesError: all sources failed: "
        ++ String.intercalate "; " (sourceErrors env.sourceResults)) := by
  have hlen : env.sourceResults.length ≠ 0 := by
    intro h0
    exact hne (List.length_eq_zero.mp h0)
  have hmain : get_scraped_courses env.sourceResults =
      .error ("NoCandidatesError: all sources failed: "
        ++ String.intercalate "; " (sourceErrors env.sourceResults)) := by
    simp only [get_scraped_courses]
    rw [if_pos ⟨hlen, hall⟩]
  have hEmpty : env.sites.isEmpty = false := by
    cases hs : env.sites with
    | nil => exact absurd hs hsites
    | cons a l => rfl
  refine ⟨hmain, ?_, ?_⟩ <;> simp [runAfterLogin, hEmpty, hmain]

theorem claim_C4_witness :
    allErrorEnv.sourceResults ≠ [] ∧
    (runAfterLogin allErrorEnv cleanGlobals).2 = false ∧
    (runAfterLogin allErrorEnv cleanGlobals).1.stats.status =
      "Error: NoCandidatesError: all sources failed: timeout" :=
  ⟨List.cons_ne_nil _ _,
   (claim_C4 allErrorEnv cleanGlobals (List.cons_ne_nil _ _) rfl
      (List.cons_ne_nil _ _)).2.1,
   (claim_C4 allErrorEnv cleanGlobals (List.cons_ne_nil _ _) rfl
      (List.cons_ne_nil _ _)).2.2⟩

/-- The window at the front of the PendingWindow shrinks by one when a slot
resolves. -/
theorem resolveOne_length (api : Course → ApiOutcome) (s : EngineState) :
    (resolveOne api s).valid_courses.length = s.valid_courses.length - 1 := by
  cases h : s.valid_courses with
  | nil => simp [resolveOne, h]
  | cons c rest => cases hapi : api c <;> simp [resolveOne, h, hapi]

theorem admitCandidate_window_le (api : Course → ApiOutcome)
    (accept : Course → Bool) (s : EngineState) (c : Course)
    (h : s.valid_courses.length ≤ 5) :
    (admitCandidate api accept s c).valid_courses.length ≤ 5 := by
  unfold admitCandidate
  by_cases hacc : accept c = true
  · by_cases hfull : 5 ≤ s.valid_courses.length
    · simp [hacc, hfull, resolveOne_length]
      omega
    · simp [hacc, hfull]
      omega
  · simp [hacc]
    exact h

theorem scanl_window_le (api : Course → ApiOutcome) (accept : Course → Bool)
    (cs : List Course) (s : EngineState) (h : s.valid_courses.length ≤ 5) :
    ∀ x ∈ cs.scanl (admitCandidate api accept) s,
      x.valid_courses.length ≤ 5 := by
  induction cs generalizing s with
  | nil =>
    intro x hx
    simp [List.scanl] at hx
    subst hx
    exact h
  | cons c cs ih =>
    intro x hx
    rw [List.scanl_cons] at hx
    simp only [List.singleton_append, List.mem_cons] at hx
    rcases hx with hx | hx
    · subst hx
      exact h
    · exact ih (admitCandidate api accept s c)
        (admitCandidate_window_le api accept s c h) x hx

/-- Claim C5: at every instant of the enrollment phase the PendingWindow
(`valid_courses`) holds at most 5 candidates: every state the engine
visits while consuming candidates respects the bound, and resolving a slot
never grows the window. -/
theorem claim_C5 (api : Course → ApiOutcome) (accept : Course → Bool)
    (cs : List Course) :
    (∀ x ∈ engineTrace api accept cs, x.valid_courses.length ≤ 5) ∧
    (∀ s : EngineState,
      (resolveOne api s).valid_courses.length ≤ s.valid_courses.length) := by
  constructor
  · exact scanl_window_le api accept cs emptyEngineState (by simp [emptyEngineState])
  · intro s
    rw [resolveOne_length]
    omega

theorem claim_C5_witness :
    emptyEngineState ∈
      engineTrace (fun _ => .alreadyEnrolled) (fun _ => true) [sampleCourse] ∧
    emptyEngineState.valid_courses.length ≤ 5 :=
  ⟨by decide,
   (claim_C5 (fun _ => .alreadyEnrolled) (fun _ => true) [sampleCourse]).1
     emptyEngineState (by decide)⟩

/-- Claim C6: at the start of every enrollment run the statistics are fully
reset — all counters 0, amount saved 0, current-course fields "N/A", the
per-site progress map empty, the log cleared — and consequently the run's
result does not depend on the global state a previous run left behind. -/
theorem claim_C6 (env : RunEnv) (g0 g1 : GlobalState) (cur : String)
    (h : env.displayName ≠ "") :
    reset_enrollment_stats cur =
      { logs := [],
        stats :=
          { successfully_enrolled_c := 0, already_enrolled_c := 0,
            expired_c := 0, excluded_c := 0, amount_saved_c := 0,
            currency := cur, total_courses_processed := 0,
            total_courses_to_process := 0, current_course_title := "N/A",
            current_course_url := "N/A", status := "Idle",
            sites_progress := [] } } ∧
    run_enrollment_process env g0 = run_enrollment_process env g1 := by
  have hb : (env.displayName == "") = false := beq_eq_false_iff_ne.mpr h
  refine ⟨rfl, ?_⟩
  simp [run_enrollment_process, hb]

theorem claim_C6_witness :
    okEnv.displayName ≠ "" ∧
    run_enrollment_process okEnv cleanGlobals =
      run_enrollment_process okEnv dirtyGlobals :=
  ⟨by decide, (claim_C6 okEnv cleanGlobals dirtyGlobals "USD" (by decide)).2⟩

/-- Once the session is established, the run's final status is decided by
the scrape result and the behaviour of `start_new_enroll`. -/
theorem runAfterLogin_status (env : RunEnv) (g : GlobalState) (d : List Course)
    (hE : env.sites.isEmpty = false)
    (hscr : get_scraped_courses env.sourceResults = .ok d) :
    (runAfterLogin env g).1.stats.status =
      (match env.enroll with
       | .ok => "Finished"
       | .loginEx m => "Login Error: " ++ m
       | .otherEx m => "Error: " ++ m) := by
  cases he : env.enroll <;> simp [runAfterLogin, hE, hscr, he]

/-- Once the session is established, every non-auth failure mode of the run
yields a status of the shape `"Error: " ++ r`. -/
theorem runAfterLogin_error (env : RunEnv) (g : GlobalState)
    (hs : ((!env.sites.isEmpty &&
      (get_scraped_courses env.sourceResults).isOk) &&
       (match env.enroll with | .ok => true | _ => false)) = false)
    (ha : ((!env.sites.isEmpty &&
      (get_scraped_courses env.sourceResults).isOk) &&
       (match env.enroll with | .loginEx _ => true | _ => false)) = false) :
    ∃ r, (runAfterLogin env g).1.stats.status = "Error: " ++ r := by
  by_cases hE : env.sites.isEmpty = true
  · refine ⟨"No sites selected in settings.", ?_⟩
    have hgoal : (runAfterLogin env g).1.stats.status =
        "Error: No sites selected in settings." := by
      simp [runAfterLogin, hE]
    rw [hgoal]
    decide
  · have hE' : env.sites.isEmpty = false := by simpa using hE
    cases hscr : get_scraped_courses env.sourceResults with
    | error e =>
      refine ⟨e, ?_⟩
      simp [runAfterLogin, hE', hscr]
    | ok d =>
      cases he : env.enroll with
      | ok =>
        rw [hE', hscr, he] at hs
        simp [Except.isOk, Except.toBool] at hs
      | loginEx m =>
        rw [hE', hscr, he] at ha
        simp [Except.isOk, Except.toBool] at ha
      | otherEx m =>
        refine ⟨m, ?_⟩
        simp [runAfterLogin, hE', hscr, he]

/-- When the display name is present and a session can be established, the
run proceeds to the post-login phase on some reset global state. -/
theorem run_reduces (env : RunEnv) (g : GlobalState)
    (hdnf : (env.displayName == "") = false)
    (hsess : ((env.haveInstance && env.instanceDisplayName != "") ||
      env.cookieLogin.isOk) = true) :
    ∃ g2, run_enrollment_process env g = runAfterLogin env g2 := by
  by_cases hre : (!env.haveInstance || env.instanceDisplayName == "") = true
  · have hfst : (env.haveInstance && env.instanceDisplayName != "") = false := by
      rcases Bool.or_eq_true_iff.mp hre with h1 | h1
      · have hh : env.haveInstance = false := by simpa using h1
        simp [hh]
      · simp [bne, h1]
    rw [hfst, Bool.false_or] at hsess
    cases hc : env.cookieLogin with
    | error e =>
      rw [hc] at hsess
      simp [Except.isOk, Except.toBool] at hsess
    | ok c =>
      exact ⟨_, by
        conv_lhs => simp [run_enrollment_process, hdnf, hre, hc]⟩
  · by_cases hic : (env.instanceCurrency != "") = true
    · exact ⟨_, by
        conv_lhs => simp [run_enrollment_process, hdnf, hre, hic]⟩
    · exact ⟨_, by
        conv_lhs => simp [run_enrollment_process, hdnf, hre, hic]⟩

/-- Claim C7 counterexample: a run whose `start_new_enroll` raises a
`LoginException` terminates with status "Login Error: session invalid",
which does not begin with "Error: " — so the claim that every failure
status begins with "Error: <reason>" is false at this input. -/
theorem claim_C7_counterexample :
    (run_enrollment_process loginFailEnv cleanGlobals).1.stats.status =
      "Login Error: session invalid" ∧
    strStartsWith "Login Error: session invalid" "Error: " = false := by
  refine ⟨by decide, by decide⟩

/-- Claim C7 (amended): every enrollment run terminates with a status
string that distinguishes success from failure: the status is exactly
"Finished" when the run completes normally; a fatal
session/authentication failure raised during the run (a `LoginException`
from `start_new_enroll`) is surfaced distinctly as
"Login Error: <reason>"; every other failure — including a failed session
re-initialization — yields a status beginning "Error: <reason>"; and the
three shapes are pairwise distinguishable by their prefixes. -/
theorem claim_C7_amended (env : RunEnv) (g : GlobalState) :
    (runSucceeds env = true →
      (run_enrollment_process env g).1.stats.status = "Finished") ∧
    (runFailsAuth env = true →
      ∃ m, env.enroll = .loginEx m ∧
        (run_enrollment_process env g).1.stats.status = "Login Error: " ++ m) ∧
    (runSucceeds env = false → runFailsAuth env = false →
      ∃ r, (run_enrollment_process env g).1.stats.status = "Error: " ++ r) ∧
    (∀ r, strStartsWith ("Error: " ++ r) "Error: " = true) ∧
    (∀ m, strStartsWith ("Login Error: " ++ m) "Login Error: " = true) ∧
    (∀ r, strStartsWith ("Error: " ++ r) "Login Error: " = false) ∧
    (∀ m, strStartsWith ("Login Error: " ++ m) "Error: " = false) ∧
    strStartsWith "Finished" "Error: " = false ∧
    strStartsWith "Finished" "Login Error: " = false := by
  refine ⟨?_, ?_, ?_, ?_, ?_, ?_, ?_, by decide, by decide⟩
  · -- normal completion
    intro h
    unfold runSucceeds at h
    simp only [Bool.and_eq_true] at h
    have hdn := h.1.1.1.1
    have hsess := h.1.1.1.2
    have hsites := h.1.1.2
    have hscr := h.1.2
    have hev := h.2
    have hdnf : (env.displayName == "") = false := by
      simp only [bne] at hdn
      simpa using hdn
    have hE : env.sites.isEmpty = false := by simpa using hsites
    obtain ⟨d, hscrOk⟩ : ∃ d, get_scraped_courses env.sourceResults = .ok d := by
      cases hsc : get_scraped_courses env.sourceResults with
      | ok d => exact ⟨d, rfl⟩
      | error e =>
        rw [hsc] at hscr
        simp [Except.isOk, Except.toBool] at hscr
    have hevOk : env.enroll = .ok := by
      revert hev
      cases env.enroll <;> simp
    obtain ⟨g2, hg2⟩ := run_reduces env g hdnf hsess
    rw [hg2, runAfterLogin_status env g2 d hE hscrOk, hevOk]
  · -- fatal auth failure during the run
    intro h
    unfold runFailsAuth at h
    simp only [Bool.and_eq_true] at h
    have hdn := h.1.1.1.1
    have hsess := h.1.1.1.2
    have hsites := h.1.1.2
    have hscr := h.1.2
    have hev := h.2
    have hdnf : (env.displayName == "") = false := by
      simp only [bne] at hdn
      simpa using hdn
    have hE : env.sites.isEmpty = false := by simpa using hsites
    obtain ⟨d, hscrOk⟩ : ∃ d, get_scraped_courses env.sourceResults = .ok d := by
      cases hsc : get_scraped_courses env.sourceResults with
      | ok d => exact ⟨d, rfl⟩
      | error e =>
        rw [hsc] at hscr
        simp [Except.isOk, Except.toBool] at hscr
    obtain ⟨m, hm⟩ : ∃ m, env.enroll = .loginEx m := by
      revert hev
      cases env.enroll with
      | loginEx m => exact fun _ => ⟨m, rfl⟩
      | ok => intro hev; simp at hev
      | otherEx m => intro hev; simp at hev
    obtain ⟨g2, hg2⟩ := run_reduces env g hdnf hsess
    refine ⟨m, hm, ?_⟩
    rw [hg2, runAfterLogin_status env g2 d hE hscrOk, hm]
  · -- all other failures
    intro hns hna
    by_cases hdn : (env.displayName == "") = true
    · refine ⟨"Not logged in", ?_⟩
      have hgoal : (run_enrollment_process env g).1.stats.status =
          "Error: Not logged in" := by
        simp [run_enrollment_process, hdn]
      rw [hgoal]
      decide
    · have hdnf : (env.displayName == "") = false := by simpa using hdn
      have hdnT : (env.displayName != "") = true := by simp [bne, hdnf]
      by_cases hsess : ((env.haveInstance && env.instanceDisplayName != "") ||
          env.cookieLogin.isOk) = true
      · have hs' : ((!env.sites.isEmpty &&
            (get_scraped_courses env.sourceResults).isOk) &&
             (match env.enroll with | .ok => true | _ => false)) = false := by
          unfold runSucceeds at hns
          rw [hdnT, hsess] at hns
          simpa only [Bool.true_and] using hns
        have ha' : ((!env.sites.isEmpty &&
            (get_scraped_courses env.sourceResults).isOk) &&
             (match env.enroll with | .loginEx _ => true | _ => false)) = false := by
          unfold runFailsAuth at hna
          rw [hdnT, hsess] at hna
          simpa only [Bool.true_and] using hna
        obtain ⟨g2, hg2⟩ := run_reduces env g hdnf hsess
        rw [hg2]
        exact runAfterLogin_error env g2 hs' ha'
      · -- the session cannot be established: the cookie re-login failed
        have hsessF : ((env.haveInstance && env.instanceDisplayName != "") ||
            env.cookieLogin.isOk) = false := by simpa using hsess
        have hre : (!env.haveInstance || env.instanceDisplayName == "") = true := by
          rcases Bool.and_eq_false_iff.mp
            (Bool.or_eq_false_iff.mp hsessF).1 with h1 | h1
          · simp [h1]
          · have hh : env.instanceDisplayName = "" := by simpa using h1
            simp [hh]
        obtain ⟨e, hc⟩ : ∃ e, env.cookieLogin = .error e := by
          have hok := (Bool.or_eq_false_iff.mp hsessF).2
          cases hc : env.cookieLogin with
          | error e => exact ⟨e, rfl⟩
          | ok c =>
            rw [hc] at hok
            simp [Except.isOk, Except.toBool] at hok
        refine ⟨"Session expired or invalid. Please re-login. (" ++ e ++ ")", ?_⟩
        have hgoal : (run_enrollment_process env g).1.stats.status =
            "Error: Session expired or invalid. Please re-login. ("
              ++ e ++ ")" := by
          simp [run_enrollment_process, hdnf, hre, hc]
        rw [hgoal, ← String.append_assoc, ← String.append_assoc]
        have hsplit : "Error: " ++
            "Session expired or invalid. Please re-login. (" =
            "Error: Session expired or invalid. Please re-login. (" := by decide
        rw [hsplit]
  · intro r
    simp [strStartsWith, String.data_append, List.isPrefixOf]
  · intro m
    simp [strStartsWith, String.data_append, List.isPrefixOf]
  · intro r
    have h : ("Error: " ++ r).data = 'E' :: ("rror: ".data ++ r.data) := by
      simp [String.data_append]
    simp only [strStartsWith, h]
    simp [List.isPrefixOf]
  · intro m
    have h : ("Login Error: " ++ m).data = 'L' :: ("ogin Error: ".data ++ m.data) := by
      simp [String.data_append]
    simp only [strStartsWith, h]
    simp [List.isPrefixOf]

theorem claim_C7_amended_witness :
    runSucceeds okEnv = true ∧
    (run_enrollment_process okEnv cleanGlobals).1.stats.status = "Finished" :=
  ⟨by decide, (claim_C7_amended okEnv cleanGlobals).1 (by decide)⟩

theorem statusStep_refl (t : String) : statusStep t t = true := by
  simp [statusStep]

/-- Any run of "Scraping..." polls followed by a terminal pair chains under
the per-source state machine. -/
theorem chain_scrap (l : List String) (t : String)
    (hl : ∀ x ∈ l, x = "Scraping...")
    (ht : statusStep "Scraping..." t = true) :
    List.Chain' (fun a b => statusStep a b = true)
      ("Scraping..." :: (l ++ [t, t])) := by
  induction l with
  | nil =>
    simp only [List.nil_append]
    exact List.chain'_cons.mpr ⟨ht, List.chain'_cons.mpr
      ⟨statusStep_refl t, List.chain'_singleton _⟩⟩
  | cons x xs ih =>
    have hx := hl x (by simp)
    subst hx
    rw [List.cons_append]
    exact List.chain'_cons.mpr ⟨statusStep_refl _,
      ih (fun y hy => hl y (by simp [hy]))⟩

/-- The status trace of any run-phase snapshot list chains under the
per-source state machine, provided the terminal step is legal. -/
theorem chain_of_shape (obs : List Int) (total : Nat) (tErr : String)
    (t : String) (ht : statusStep "Scraping..." t = true) :
    List.Chain' (fun a b => statusStep a b = true)
      ("Pending" :: List.map (fun e => e.status)
        ((⟨0, 0, false, "", "Initializing"⟩ : ProgEntry) ::
         ⟨0, (total : Int), false, "", "Scraping..."⟩ ::
         (obs.map fun c => ⟨c, (total : Int), false, "", "Scraping..."⟩) ++
         [⟨(total : Int), (total : Int), false, tErr, t⟩,
          ⟨(total : Int), (total : Int), true, tErr, t⟩])) := by
  simp only [List.cons_append, List.map_append, List.map_cons, List.map_nil,
    List.map_map]
  refine List.chain'_cons.mpr ⟨by decide, List.chain'_cons.mpr ⟨by decide, ?_⟩⟩
  refine chain_scrap _ _ ?_ ht
  intro x hx
  simp only [List.mem_map, Function.comp] at hx
  obtain ⟨c, -, rfl⟩ := hx
  rfl

/-- Claim C8: the observed per-source status only moves forward along
`Pending → Initializing → Scraping... → (Completed or Error)`, with `Error`
reachable from any non-terminal state and terminal statuses never leaving;
and an entry is never `Completed` while its error field is set. -/
theorem claim_C8 (o : ScrapeOutcome) (obs : List Int) :
    List.Chain' (fun a b => statusStep a b = true) (webStatusTrace o obs) ∧
    (∀ e ∈ create_web_scraping_thread o obs,
      e.status = "Completed" → e.error = "") := by
  cases o with
  | initError msg =>
    constructor
    · rw [webStatusTrace, webList_initError]
      simp only [List.map_cons, List.map_nil]
      exact List.chain'_cons.mpr ⟨by decide, List.chain'_cons.mpr ⟨by decide,
        List.chain'_cons.mpr ⟨statusStep_refl _, List.chain'_singleton _⟩⟩⟩
    · intro e he h
      rw [webList_initError] at he
      simp only [List.mem_cons, List.not_mem_nil, or_false] at he
      rcases he with rfl | rfl | rfl
      · simp at h
      · simp at h
      · simp at h
  | silentDeathInit =>
    constructor
    · rw [webStatusTrace, webList_silentDeathInit]
      simp only [List.map_cons, List.map_nil]
      exact List.chain'_cons.mpr ⟨by decide, List.chain'_cons.mpr ⟨by decide,
        List.chain'_cons.mpr ⟨statusStep_refl _, List.chain'_singleton _⟩⟩⟩
    · intro e he h
      rw [webList_silentDeathInit] at he
      simp only [List.mem_cons, List.not_mem_nil, or_false] at he
      rcases he with rfl | rfl | rfl
      · simp at h
      · simp at h
      · simp at h
  | runs total rest =>
    cases rest with
    | completed =>
      constructor
      · rw [webStatusTrace, webList_runs_completed]
        exact chain_of_shape obs total "" "Completed" (by decide)
      · intro e he h
        rw [webList_runs_completed] at he
        simp only [List.cons_append, List.mem_cons, List.mem_append,
          List.mem_map, List.not_mem_nil, or_false] at he
        rcases he with rfl | rfl | ⟨c, -, rfl⟩ | rfl | rfl <;> rfl
    | silentDeathMid =>
      constructor
      · rw [webStatusTrace, webList_runs_silentDeathMid]
        exact chain_of_shape obs total
          "Scraper thread died unexpectedly during scraping." "Error" (by decide)
      · intro e he h
        rw [webList_runs_silentDeathMid] at he
        simp only [List.cons_append, List.mem_cons, List.mem_append,
          List.mem_map, List.not_mem_nil, or_false] at he
        rcases he with rfl | rfl | ⟨c, -, rfl⟩ | rfl | rfl
        · rfl
        · rfl
        · rfl
        · simp at h
        · simp at h
    | midError msg =>
      by_cases hm : msg = ""
      · subst hm
        constructor
        · rw [webStatusTrace, webList_runs_midErrorEmpty]
          exact chain_of_shape obs total "" "Completed" (by decide)
        · intro e he h
          rw [webList_runs_midErrorEmpty] at he
          simp only [List.cons_append, List.mem_cons, List.mem_append,
            List.mem_map, List.not_mem_nil, or_false] at he
          rcases he with rfl | rfl | ⟨c, -, rfl⟩ | rfl | rfl <;> rfl
      · constructor
        · rw [webStatusTrace, webList_runs_midError total msg obs hm]
          exact chain_of_shape obs total msg "Error" (by decide)
        · intro e he h
          rw [webList_runs_midError total msg obs hm] at he
          simp only [List.cons_append, List.mem_cons, List.mem_append,
            List.mem_map, List.not_mem_nil, or_false] at he
          rcases he with rfl | rfl | ⟨c, -, rfl⟩ | rfl | rfl
          · rfl
          · rfl
          · rfl
          · simp at h
          · simp at h

theorem claim_C8_witness :
    webFinal (.runs 2 .completed) [1] ∈
      create_web_scraping_thread (.runs 2 .completed) [1] ∧
    (webFinal (.runs 2 .completed) [1]).status = "Completed" ∧
    (webFinal (.runs 2 .completed) [1]).error = "" :=
  ⟨by decide, by decide,
   (claim_C8 (.runs 2 .completed) [1]).2 _ (by decide) (by decide)⟩

/-- Claim C9: submitting the web settings form saves the new settings and
redirects, but never starts or stops the auto-enroll scheduler in that
request — the scheduler branch of the handler sits after an unconditional
return, so for every form, save outcome and scheduler state the handler
answers with the redirect and leaves the scheduler job state unchanged;
the job state is set at application startup instead. -/
theorem claim_C9 (form : SettingsForm) (saveOk : Bool) (st : SchedState) :
    settings_page_post form saveOk st =
      (WebResponse.redirectTo "settings_page", st) ∧
    (settings_page_post form saveOk st).2 = st ∧
    initial_app_setup { auto_start_enabled := true, auto_start_hours := 4 }
      { job := none } = { job := some 4 } :=
  ⟨rfl, rfl, rfl⟩

/-- Claim C10 counterexample: an unauthenticated request to
`/start_enrollment` while the enrollment thread is alive is refused with
"Not logged in" (HTTP 401), not with "Process already running" — the
session check at src/app.py line 588 precedes the aliveness check — so the
claim's universally quantified refusal message is false (though no thread
is spawned either way). -/
theorem claim_C10_counterexample :
    start_enrollment false true =
      ({ ok := false, message := "Not logged in", httpStatus := 401 }, false) ∧
    "Not logged in" ≠ "Process already running" :=
  ⟨rfl, by decide⟩

/-- Claim C10 (amended): at most one enrollment process runs at a time —
every request to `/start_enrollment` while the enrollment thread is alive
spawns no new thread and is refused, with "Process already running"
(HTTP 400) when the requester is authenticated and with "Not logged in"
(HTTP 401) otherwise, and the scheduled auto-enroll job likewise returns
without starting a second process, so the enrollment statistics have a
single writer at any time. -/
theorem claim_C10_amended (login : AutoLoginResult) :
    (∀ loggedIn, (start_enrollment loggedIn true).2 = false) ∧
    start_enrollment true true =
      ({ ok := false, message := "Process already running",
         httpStatus := 400 }, false) ∧
    start_enrollment false true =
      ({ ok := false, message := "Not logged in", httpStatus := 401 },
       false) ∧
    auto_enroll_job true login = (false, none) := by
  refine ⟨?_, rfl, rfl, rfl⟩
  intro b
  cases b <;> rfl

end DUCE
